import Mathlib

/-!
Verification of the trace-accumulation logic of `src/example.py`
(an interactive CSV-to-line-plot page).

The embedding follows the source directly:
  * `Value` models a single cell of the parsed CSV table (the spec's
    closed set of variant cell types: numeric, text, boolean, missing).
  * `Table` models the pandas DataFrame produced by `pd.read_csv`
    (line 28): an ordered list of named columns, each an ordered list of
    values.  `Table.getCol` models `df[name].tolist()` (lines 80-81),
    which fails with a key error when the name is not a column.
  * `TraceRecord` models the `new_trace` dictionary (lines 79-85).
  * `buildTrace` models the Trace Builder: the label defaults applied by
    the text-input widgets (lines 67-73, `value=x_column`,
    `value=y_column`, `value=f"{y_column} vs {x_column}"`) composed with
    the dictionary construction (lines 79-85).
  * `append` / `clearStore` model lines 86 and 91 on the session list
    `st.session_state.traces`.
  * `renderFig` models the figure construction of lines 101-144:
    one scatter per stored trace (lines 107-115) and axis titles taken
    from `st.session_state.traces[-1]` (lines 117-131).
  * `runCycle` models one execution of the script for a given session
    store and widget state: the try/except around the upload block
    (lines 25-95), the add button (lines 78-87), the clear button with
    its `st.rerun()` (lines 89-92, the rerun ends the cycle before the
    chart section runs), and the chart section guarded by
    `if st.session_state.traces:` (lines 97-148).
-/

/-- A cell value of the parsed table: numeric, text, boolean or missing. -/
inductive Value where
  | num (q : Int)
  | text (s : String)
  | boolean (b : Bool)
  | missing
deriving DecidableEq, Repr

/-- The parsed CSV table (`df`): ordered named columns, each an ordered
list of cell values in row order. -/
structure Table where
  cols : List (String × List Value)
deriving DecidableEq, Repr

/-- `df[name].tolist()`: the value list of the first column called `name`,
or `none` when no such column exists (pandas raises a key error). -/
def Table.getCol (t : Table) (name : String) : Option (List Value) :=
  (t.cols.find? (fun c => c.1 == name)).map (fun c => c.2)

/-- The DataFrame invariant: all columns of a parsed table share one row
count (`df.shape[0]`). -/
def Table.rowsConsistent (t : Table) : Prop :=
  ∀ c ∈ t.cols, ∀ c' ∈ t.cols, c.2.length = c'.2.length

instance (t : Table) : Decidable t.rowsConsistent := by
  unfold Table.rowsConsistent
  infer_instance

/-- The `new_trace` dictionary of lines 79-85. -/
structure TraceRecord where
  x : List Value
  y : List Value
  name : String
  x_label : String
  y_label : String
deriving DecidableEq, Repr

/-- The failure of `df[column]` for an unknown column name (pandas
`KeyError`, naming the missing column). -/
inductive BuildError where
  | unknownColumn (name : String)
deriving DecidableEq, Repr

/-- The text carried by the key error: the missing column's name. -/
def BuildError.message : BuildError → String
  | .unknownColumn c => c

/-- The Trace Builder: widget defaults (lines 67-73) composed with the
dictionary construction (lines 79-85).  `none` for a label or name input
means the user left the widget's prefilled default untouched.
`df[x_column]` is evaluated before `df[y_column]`, as in line 80 before
line 81, so the x column's key error wins when both are unknown. -/
def buildTrace (df : Table) (xColumn yColumn : String)
    (xLabelInput yLabelInput traceNameInput : Option String) :
    Except BuildError TraceRecord :=
  match df.getCol xColumn with
  | none => .error (.unknownColumn xColumn)
  | some xs =>
    match df.getCol yColumn with
    | none => .error (.unknownColumn yColumn)
    | some ys =>
      .ok { x := xs
            y := ys
            name := traceNameInput.getD (yColumn ++ " vs " ++ xColumn)
            x_label := xLabelInput.getD xColumn
            y_label := yLabelInput.getD yColumn }

/-- `st.session_state.traces.append(new_trace)` (line 86). -/
def append (s : List TraceRecord) (r : TraceRecord) : List TraceRecord :=
  s ++ [r]

/-- `st.session_state.traces = []` (line 91). -/
def clearStore (_s : List TraceRecord) : List TraceRecord :=
  []

/-- A sequence of add actions applied in call order. -/
def appendAll (s : List TraceRecord) (rs : List TraceRecord) : List TraceRecord :=
  rs.foldl append s

/-- One `go.Scatter(...)` of lines 108-115. -/
structure Scatter where
  x : List Value
  y : List Value
  mode : String
  name : String
deriving DecidableEq, Repr

/-- The `go.Figure` after the layout update of lines 119-144 (the fields
the claims are about). -/
structure Figure where
  title : String
  scatters : List Scatter
  xaxisTitle : String
  yaxisTitle : String
deriving DecidableEq, Repr

/-- Lines 108-115: the scatter built from one stored trace. -/
def traceToScatter (t : TraceRecord) : Scatter :=
  { x := t.x, y := t.y, mode := "lines+markers", name := t.name }

/-- Lines 101-144: the figure built from a non-empty store; axis titles
come from `traces[-1]` (lines 117, 125, 129). -/
def renderFig (ts : List TraceRecord) (h : ts ≠ []) : Figure :=
  { title := "Your Interactive Plot"
    scatters := ts.map traceToScatter
    xaxisTitle := (ts.getLast h).x_label
    yaxisTitle := (ts.getLast h).y_label }

/-- The widget state of one script execution: the upload outcome (`none`
when no file is uploaded, otherwise the result of `pd.read_csv`), the two
column selections, the three optional text inputs, and the two buttons. -/
structure PageInput where
  uploadedFile : Option (Except String Table)
  xColumn : String
  yColumn : String
  xLabelInput : Option String
  yLabelInput : Option String
  traceNameInput : Option String
  addClicked : Bool
  clearClicked : Bool

/-- The observable outcome of one script execution: the session store
afterwards, the error shown by `st.error` (line 95) if any, the chart
shown by `st.plotly_chart` (line 146) if any, and the trace count shown
by `st.info` (line 148) if any. -/
structure CycleResult where
  newStore : List TraceRecord
  errorMsg : Option String
  chart : Option Figure
  countShown : Option Nat

/-- `f"❌ Error reading file: {e}"` (line 95). -/
def readErrorMessage (reason : String) : String :=
  "❌ Error reading file: " ++ reason

/-- Lines 97-148: the chart section, guarded by
`if st.session_state.traces:`. -/
def finishRender (s : List TraceRecord) (err : Option String) : CycleResult :=
  if h : s = [] then
    { newStore := s, errorMsg := err, chart := none, countShown := none }
  else
    { newStore := s, errorMsg := err, chart := some (renderFig s h),
      countShown := some s.length }

/-- Lines 89-92: the clear button, shown only when the store is
non-empty; clicking it empties the store and calls `st.rerun()`, which
ends the cycle before the chart section runs (the fresh run then renders
nothing from the empty store). -/
def afterForm (s : List TraceRecord) (inp : PageInput) : CycleResult :=
  if s.isEmpty then
    finishRender s none
  else if inp.clearClicked then
    { newStore := clearStore s, errorMsg := none, chart := none, countShown := none }
  else
    finishRender s none

/-- One full script execution (lines 25-148) for a given session store
and widget state.  A key error from `df[column]` inside the add handler
is caught by the `except Exception` of line 94, so the store is left
unchanged and the error is shown; the chart section (line 97) runs either
way. -/
def runCycle (store : List TraceRecord) (inp : PageInput) : CycleResult :=
  match inp.uploadedFile with
  | none => finishRender store none
  | some (.error e) => finishRender store (some (readErrorMessage e))
  | some (.ok df) =>
    if inp.addClicked then
      match buildTrace df inp.xColumn inp.yColumn
          inp.xLabelInput inp.yLabelInput inp.traceNameInput with
      | .error err => finishRender store (some (readErrorMessage err.message))
      | .ok r => afterForm (append store r) inp
    else
      afterForm store inp

/-! ### Helper lemmas -/

theorem getCol_mem {t : Table} {name : String} {vs : List Value}
    (h : t.getCol name = some vs) : (name, vs) ∈ t.cols := by
  unfold Table.getCol at h
  rcases Option.map_eq_some'.mp h with ⟨c, hfind, hsnd⟩
  have hmem := List.mem_of_find?_eq_some hfind
  have hp := List.find?_some hfind
  have hfst : c.1 = name := by simpa using hp
  have : c = (name, vs) := by
    cases c
    simp_all
  rwa [this] at hmem

theorem appendAll_eq (s rs : List TraceRecord) : appendAll s rs = s ++ rs := by
  induction rs generalizing s with
  | nil => simp [appendAll]
  | cons r rs ih =>
    show appendAll (append s r) rs = _
    rw [ih]
    simp [append]

theorem finishRender_newStore (s : List TraceRecord) (err : Option String) :
    (finishRender s err).newStore = s := by
  unfold finishRender
  split <;> rfl

theorem finishRender_errorMsg (s : List TraceRecord) (err : Option String) :
    (finishRender s err).errorMsg = err := by
  unfold finishRender
  split <;> rfl

theorem finishRender_chart_isSome (s : List TraceRecord) (err : Option String) :
    (finishRender s err).chart.isSome ↔ s ≠ [] := by
  unfold finishRender
  split <;> simp_all

theorem afterForm_newStore_nonempty_iff_chart (s : List TraceRecord) (inp : PageInput) :
    (afterForm s inp).chart.isSome ↔ (afterForm s inp).newStore ≠ [] := by
  unfold afterForm
  split
  · rw [finishRender_newStore, finishRender_chart_isSome]
  · split
    · simp [clearStore]
    · rw [finishRender_newStore, finishRender_chart_isSome]

/-! ### Claims -/

/-- C1: every TraceRecord constructed by the Trace Builder from a loaded
Table (whose columns share one row count) has x and y sequences of equal
length. -/
theorem trace_builder_xy_same_length (df : Table) (hc : df.rowsConsistent)
    (xc yc : String) (xl yl nm : Option String) (r : TraceRecord)
    (h : buildTrace df xc yc xl yl nm = .ok r) :
    r.x.length = r.y.length := by
  unfold buildTrace at h
  cases hx : df.getCol xc with
  | none => rw [hx] at h; cases h
  | some xs =>
    cases hy : df.getCol yc with
    | none => rw [hx, hy] at h; cases h
    | some ys =>
      rw [hx, hy] at h
      cases h
      exact hc _ (getCol_mem hx) _ (getCol_mem hy)

theorem trace_builder_xy_same_length_witness :
    ({ x := [Value.num 1], y := [Value.num 2], name := "b vs a",
       x_label := "a", y_label := "b" } : TraceRecord).x.length =
    ({ x := [Value.num 1], y := [Value.num 2], name := "b vs a",
       x_label := "a", y_label := "b" } : TraceRecord).y.length :=
  trace_builder_xy_same_length
    (Table.mk [("a", [Value.num 1]), ("b", [Value.num 2])]) (by decide)
    "a" "b" none none none _ rfl

/-- C2: for any non-empty store, written as earlier traces `ts` followed
by the most recently appended trace `r`, the rendered chart's axis titles
are the labels of `r`, whatever the labels of the traces in `ts`. -/
theorem render_axis_titles_from_last (ts : List TraceRecord) (r : TraceRecord)
    (h : ts ++ [r] ≠ []) :
    (renderFig (ts ++ [r]) h).xaxisTitle = r.x_label ∧
    (renderFig (ts ++ [r]) h).yaxisTitle = r.y_label := by
  unfold renderFig
  constructor <;> simp [List.getLast_append]

/-- The two concrete traces used by witnesses: an older trace with one
pair of labels and a newer trace with different labels. -/
def oldTrace : TraceRecord :=
  { x := [], y := [], name := "t0", x_label := "oldX", y_label := "oldY" }

def newTrace : TraceRecord :=
  { x := [], y := [], name := "t1", x_label := "newX", y_label := "newY" }

theorem render_axis_titles_from_last_witness :
    (renderFig ([oldTrace] ++ [newTrace]) (by simp)).xaxisTitle = "newX" ∧
    (renderFig ([oldTrace] ++ [newTrace]) (by simp)).yaxisTitle = "newY" :=
  render_axis_titles_from_last [oldTrace] newTrace (by simp)

/-- C3: starting from the empty store, a sequence of N successful add
actions leaves the store with length N and with its i-th element equal to
the i-th built record, in call order; each append grows the store by
exactly one (no failure, no deduplication, no limit). -/
theorem store_append_sequence (rs : List TraceRecord) :
    (appendAll [] rs).length = rs.length ∧
    (∀ i : Nat, (appendAll [] rs)[i]? = rs[i]?) ∧
    (∀ (s : List TraceRecord) (r : TraceRecord),
      (append s r).length = s.length + 1) := by
  refine ⟨?_, ?_, ?_⟩ <;> simp [appendAll_eq, append]

/-- C4: with all three text inputs left at their defaults, the built
record has x_label equal to the x column name, y_label equal to the y
column name, and name equal to "<y-column> vs <x-column>". -/
theorem default_labels (df : Table) (xc yc : String) (r : TraceRecord)
    (h : buildTrace df xc yc none none none = .ok r) :
    r.x_label = xc ∧ r.y_label = yc ∧ r.name = yc ++ " vs " ++ xc := by
  unfold buildTrace at h
  cases hx : df.getCol xc with
  | none => rw [hx] at h; cases h
  | some xs =>
    cases hy : df.getCol yc with
    | none => rw [hx, hy] at h; cases h
    | some ys =>
      rw [hx, hy] at h
      cases h
      exact ⟨rfl, rfl, rfl⟩

theorem default_labels_witness :
    ({ x := [Value.num 1], y := [Value.num 2], name := "value vs time",
       x_label := "time", y_label := "value" } : TraceRecord).x_label = "time" ∧
    ({ x := [Value.num 1], y := [Value.num 2], name := "value vs time",
       x_label := "time", y_label := "value" } : TraceRecord).y_label = "value" ∧
    ({ x := [Value.num 1], y := [Value.num 2], name := "value vs time",
       x_label := "time", y_label := "value" } : TraceRecord).name =
      "value" ++ " vs " ++ "time" :=
  default_labels
    (Table.mk [("time", [Value.num 1]), ("value", [Value.num 2])])
    "time" "value" _ rfl

/-- C5: the built record's x and y are exactly the full value sequences
of the chosen columns, in row order, with no aggregation, filtering or
coercion. -/
theorem builder_passthrough_columns (df : Table) (xc yc : String)
    (xl yl nm : Option String) (xs ys : List Value)
    (hx : df.getCol xc = some xs) (hy : df.getCol yc = some ys)
    (r : TraceRecord) (h : buildTrace df xc yc xl yl nm = .ok r) :
    r.x = xs ∧ r.y = ys := by
  unfold buildTrace at h
  rw [hx, hy] at h
  cases h
  exact ⟨rfl, rfl⟩

theorem builder_passthrough_columns_witness :
    ({ x := [Value.num 1, Value.missing], y := [Value.text "u", Value.boolean true],
       name := "b vs a", x_label := "a", y_label := "b" } : TraceRecord).x =
      [Value.num 1, Value.missing] ∧
    ({ x := [Value.num 1, Value.missing], y := [Value.text "u", Value.boolean true],
       name := "b vs a", x_label := "a", y_label := "b" } : TraceRecord).y =
      [Value.text "u", Value.boolean true] :=
  builder_passthrough_columns
    (Table.mk [("a", [Value.num 1, Value.missing]),
               ("b", [Value.text "u", Value.boolean true])])
    "a" "b" none none none
    [Value.num 1, Value.missing] [Value.text "u", Value.boolean true]
    rfl rfl _ rfl

theorem finishRender_countShown (s : List TraceRecord) (err : Option String) :
    (finishRender s err).countShown =
      if s = [] then none else some s.length := by
  unfold finishRender
  split <;> simp_all

/-- C6: when the uploaded file fails to parse with reason `e`, the cycle
shows the error message containing `e`, the store is exactly what it was
before, and the cycle still completes (the exception is caught, never
propagated). -/
theorem parse_failure_preserves_store (store : List TraceRecord)
    (e xc yc : String) (xl yl nm : Option String) (ac cc : Bool) :
    (runCycle store ⟨some (.error e), xc, yc, xl, yl, nm, ac, cc⟩).newStore
        = store ∧
    (runCycle store ⟨some (.error e), xc, yc, xl, yl, nm, ac, cc⟩).errorMsg
        = some ("❌ Error reading file: " ++ e) :=
  ⟨finishRender_newStore store (some (readErrorMessage e)),
   finishRender_errorMsg store (some (readErrorMessage e))⟩

/-- C7: clearing resets the store to length 0 from any prior non-empty
state (the clear button is only shown on a non-empty store), and the
store-level clear operation yields length 0 from any state whatever. -/
theorem clear_resets_store (store : List TraceRecord) (df : Table)
    (xc yc : String) (xl yl nm : Option String)
    (hne : store ≠ []) :
    (∀ s : List TraceRecord, (clearStore s).length = 0) ∧
    (runCycle store ⟨some (.ok df), xc, yc, xl, yl, nm, false, true⟩).newStore.length
      = 0 := by
  refine ⟨fun s => rfl, ?_⟩
  show (afterForm store _).newStore.length = 0
  unfold afterForm
  rw [if_neg (by simp [hne]), if_pos rfl]
  rfl

theorem clear_resets_store_witness :
    [oldTrace, newTrace] ≠ ([] : List TraceRecord) ∧
    (runCycle [oldTrace, newTrace]
        ⟨some (.ok (Table.mk [("a", [Value.num 1])])), "a", "a",
         none, none, none, false, true⟩).newStore.length = 0 :=
  ⟨by simp,
   (clear_resets_store [oldTrace, newTrace] (Table.mk [("a", [Value.num 1])])
      "a" "a" none none none (by simp)).2⟩

/-- C8: invoked with an x or y column name that is not among the table's
columns, the Trace Builder produces a distinguished unknown-column error
naming a missing column, not a record. -/
theorem unknown_column_rejected (df : Table) (xc yc : String)
    (xl yl nm : Option String)
    (h : df.getCol xc = none ∨ df.getCol yc = none) :
    ∃ c, buildTrace df xc yc xl yl nm = .error (.unknownColumn c) ∧
      df.getCol c = none := by
  unfold buildTrace
  cases hx : df.getCol xc with
  | none => exact ⟨xc, rfl, hx⟩
  | some xs =>
    cases hy : df.getCol yc with
    | none => exact ⟨yc, rfl, hy⟩
    | some ys =>
      rw [hx, hy] at h
      simp at h

theorem unknown_column_rejected_witness :
    ∃ c, buildTrace (Table.mk [("a", [Value.num 1])]) "zzz" "a"
        none none none = .error (.unknownColumn c) ∧
      (Table.mk [("a", [Value.num 1])]).getCol c = none :=
  unknown_column_rejected (Table.mk [("a", [Value.num 1])]) "zzz" "a"
    none none none (Or.inl (by decide))

theorem runCycle_none (store : List TraceRecord) (xc yc : String)
    (xl yl nm : Option String) (ac cc : Bool) :
    runCycle store ⟨none, xc, yc, xl, yl, nm, ac, cc⟩ =
      finishRender store none := rfl

theorem runCycle_parseError (store : List TraceRecord) (e xc yc : String)
    (xl yl nm : Option String) (ac cc : Bool) :
    runCycle store ⟨some (.error e), xc, yc, xl, yl, nm, ac, cc⟩ =
      finishRender store (some (readErrorMessage e)) := rfl

theorem runCycle_noAdd (store : List TraceRecord) (df : Table) (xc yc : String)
    (xl yl nm : Option String) (cc : Bool) :
    runCycle store ⟨some (.ok df), xc, yc, xl, yl, nm, false, cc⟩ =
      afterForm store ⟨some (.ok df), xc, yc, xl, yl, nm, false, cc⟩ := rfl

theorem runCycle_add (store : List TraceRecord) (df : Table) (xc yc : String)
    (xl yl nm : Option String) (cc : Bool) :
    runCycle store ⟨some (.ok df), xc, yc, xl, yl, nm, true, cc⟩ =
      (match buildTrace df xc yc xl yl nm with
        | .error err => finishRender store (some (readErrorMessage err.message))
        | .ok r =>
          afterForm (append store r)
            ⟨some (.ok df), xc, yc, xl, yl, nm, true, cc⟩) := rfl

theorem afterForm_shape (s : List TraceRecord) (inp : PageInput) :
    afterForm s inp = finishRender s none ∨
      afterForm s inp = ⟨[], none, none, none⟩ := by
  unfold afterForm
  split
  · exact .inl rfl
  · split
    · exact .inr rfl
    · exact .inl rfl

theorem runCycle_shape (store : List TraceRecord) (inp : PageInput) :
    (∃ s err, runCycle store inp = finishRender s err) ∨
      runCycle store inp = ⟨[], none, none, none⟩ := by
  obtain ⟨u, xc, yc, xl, yl, nm, ac, cc⟩ := inp
  cases u with
  | none => exact .inl ⟨store, none, runCycle_none store xc yc xl yl nm ac cc⟩
  | some res =>
    cases res with
    | error e =>
      exact .inl ⟨store, some (readErrorMessage e),
        runCycle_parseError store e xc yc xl yl nm ac cc⟩
    | ok df =>
      cases ac with
      | false =>
        rw [runCycle_noAdd]
        rcases afterForm_shape store ⟨some (.ok df), xc, yc, xl, yl, nm, false, cc⟩
          with h | h
        · exact .inl ⟨store, none, h⟩
        · exact .inr h
      | true =>
        rw [runCycle_add]
        cases hbt : buildTrace df xc yc xl yl nm with
        | error err =>
          exact .inl ⟨store, some (readErrorMessage err.message), rfl⟩
        | ok r =>
          rcases afterForm_shape (append store r)
              ⟨some (.ok df), xc, yc, xl, yl, nm, true, cc⟩ with h | h
          · exact .inl ⟨append store r, none, h⟩
          · exact .inr h

theorem displayResult_spec (c : CycleResult)
    (h : (∃ s err, c = finishRender s err) ∨ c = ⟨[], none, none, none⟩) :
    (c.chart.isSome ↔ c.newStore ≠ []) ∧
    (c.countShown = if c.newStore = [] then none else some c.newStore.length) := by
  rcases h with ⟨s, err, rfl⟩ | rfl
  · constructor
    · rw [finishRender_newStore]
      exact finishRender_chart_isSome s err
    · rw [finishRender_newStore, finishRender_countShown]
  · simp

/-- C9: in every cycle, the chart is rendered exactly when the resulting
store is non-empty (and the trace count is shown with it, equal to the
store's length); with no file uploaded the store is unchanged, so a
non-empty store still gets its chart. -/
theorem renderer_iff_nonempty (store : List TraceRecord) (inp : PageInput) :
    ((runCycle store inp).chart.isSome ↔ (runCycle store inp).newStore ≠ []) ∧
    ((runCycle store inp).countShown =
      if (runCycle store inp).newStore = [] then none
      else some (runCycle store inp).newStore.length) ∧
    (inp.uploadedFile = none → (runCycle store inp).newStore = store) := by
  refine ⟨(displayResult_spec _ (runCycle_shape store inp)).1,
          (displayResult_spec _ (runCycle_shape store inp)).2, ?_⟩
  intro hnone
  obtain ⟨u, xc, yc, xl, yl, nm, ac, cc⟩ := inp
  change u = none at hnone
  subst hnone
  exact finishRender_newStore store none

theorem renderer_iff_nonempty_witness :
    ((runCycle [oldTrace] ⟨none, "", "", none, none, none, false, false⟩).chart.isSome ↔
      (runCycle [oldTrace] ⟨none, "", "", none, none, none, false, false⟩).newStore ≠ []) ∧
    (runCycle [oldTrace] ⟨none, "", "", none, none, none, false, false⟩).newStore
      = [oldTrace] :=
  ⟨(renderer_iff_nonempty [oldTrace] ⟨none, "", "", none, none, none, false, false⟩).1,
   (renderer_iff_nonempty [oldTrace] ⟨none, "", "", none, none, none, false, false⟩).2.2 rfl⟩

/-- C10: for a successfully parsed table with zero rows, the add action
still succeeds: the built record has empty x and y, it is appended to the
store, and the rendered chart contains its scatter like any other. -/
theorem zero_row_add_renders (store : List TraceRecord) (df : Table)
    (xc yc : String) (xl yl nm : Option String)
    (hx : df.getCol xc = some []) (hy : df.getCol yc = some []) :
    ∃ r, buildTrace df xc yc xl yl nm = .ok r ∧ r.x = [] ∧ r.y = [] ∧
      (runCycle store ⟨some (.ok df), xc, yc, xl, yl, nm, true, false⟩).newStore
        = store ++ [r] ∧
      ∃ fig,
        (runCycle store ⟨some (.ok df), xc, yc, xl, yl, nm, true, false⟩).chart
          = some fig ∧
        fig.scatters = (store ++ [r]).map traceToScatter := by
  have hbt : buildTrace df xc yc xl yl nm =
      .ok { x := [], y := [], name := nm.getD (yc ++ " vs " ++ xc),
            x_label := xl.getD xc, y_label := yl.getD yc } := by
    unfold buildTrace
    rw [hx, hy]
  refine ⟨_, hbt, rfl, rfl, ?_, ?_⟩ <;>
    rw [runCycle_add, hbt] <;>
    simp only [afterForm, append] <;>
    rw [if_neg (by simp)] <;>
    rw [if_neg (by simp [Bool.false_eq_true])]
  · exact finishRender_newStore _ _
  · have hne : store ++
        [({ x := [], y := [], name := nm.getD (yc ++ " vs " ++ xc),
            x_label := xl.getD xc, y_label := yl.getD yc } : TraceRecord)] ≠ [] :=
      by simp
    refine ⟨renderFig _ hne, ?_, rfl⟩
    unfold finishRender
    rw [dif_neg hne]

theorem zero_row_add_renders_witness :
    ∃ r, buildTrace (Table.mk [("a", []), ("b", [])]) "a" "b"
        none none none = .ok r ∧ r.x = [] ∧ r.y = [] ∧
      (runCycle [] ⟨some (.ok (Table.mk [("a", []), ("b", [])])), "a", "b",
          none, none, none, true, false⟩).newStore = [] ++ [r] ∧
      ∃ fig,
        (runCycle [] ⟨some (.ok (Table.mk [("a", []), ("b", [])])), "a", "b",
            none, none, none, true, false⟩).chart = some fig ∧
        fig.scatters = ([] ++ [r]).map traceToScatter :=
  zero_row_add_renders [] (Table.mk [("a", []), ("b", [])]) "a" "b"
    none none none rfl rfl
